import Mathlib

/-!
Verification of the invoice-verification pipeline against its design document.

The Python sources under app/processing, app/services and app/routes are
shallowly embedded below.  External collaborators (the llama_cpp completion
call, json_repair + json.loads, PaddleOCR page recognition, PyMuPDF text
access, the Microsoft Graph transport) are modelled as oracle parameters;
the code of the repository itself (input dispatch, prompt formatting, the
repair cascade, field sanitization, the fast-path and fallback OCR result
construction, the background worker loop, the SharePoint upsert and lookup
logic, the validation route) is translated statement by statement.

Machine floats are modelled as exact rationals plus the IEEE specials NaN
and signed infinity; Python float() parsing of a string is modelled over
ASCII input (sign, decimal mantissa, exponent, underscore grouping, the
spellings of the specials).  Rounding and overflow of huge exponents are
not modelled; no claim below depends on them.
-/

set_option linter.unusedVariables false
set_option maxRecDepth 4096

/-- A Python float: an exact rational, NaN, or a signed infinity. -/
inductive PyFloat where
  | finite (q : ℚ)
  | nan
  | inf (neg : Bool)
deriving DecidableEq, Repr

/-- Finiteness of a modelled float (neither NaN nor an infinity). -/
def PyFloat.isFinite : PyFloat → Bool
  | .finite _ => true
  | _ => false

/-- Python strict greater-than on floats: NaN compares false to everything.
The finite case is stated by cross-multiplying numerators and denominators
so that it evaluates by integer arithmetic. -/
def PyFloat.gtF : PyFloat → PyFloat → Bool
  | .nan, _ => false
  | _, .nan => false
  | .finite a, .finite b => decide (b.num * (a.den : ℤ) < a.num * (b.den : ℤ))
  | .finite _, .inf n => n
  | .inf n, .finite _ => !n
  | .inf n, .inf m => !n && m

/-- Characters stripped by Python str.strip() with no argument (ASCII range). -/
def pyIsSpace (c : Char) : Bool :=
  c = ' ' || c = '\t' || c = '\n' || c = '\r' || c = '\x0b' || c = '\x0c'

/-- str.strip() on a character list: drop whitespace from both ends. -/
def pyStripList (cs : List Char) : List Char :=
  ((cs.dropWhile pyIsSpace).reverse.dropWhile pyIsSpace).reverse

/-- str.strip() on a string. -/
def pyStrip (s : String) : String :=
  String.mk (pyStripList s.toList)

/-- Python sep.join(list), defined structurally for proof transparency;
the embedding uses it wherever the source joins with a separator. -/
def joinSep (sep : String) : List String → String
  | [] => ""
  | [x] => x
  | x :: y :: rest => x ++ sep ++ joinSep sep (y :: rest)

/-- Value of a list of ASCII digits read in base 10. -/
def natOfDigits (cs : List Char) : Nat :=
  cs.foldl (fun n c => n * 10 + (c.toNat - 48)) 0

/-- Split a character list at the first occurrence of a separator character. -/
def splitAtChar (sep : Char) : List Char → (List Char × Option (List Char))
  | [] => ([], none)
  | c :: rest =>
      if c = sep then ([], some rest)
      else
        let (m, e) := splitAtChar sep rest
        (c :: m, e)

/-- Split a character list at the first exponent marker e or E. -/
def splitAtExp : List Char → (List Char × Option (List Char))
  | [] => ([], none)
  | c :: rest =>
      if c = 'e' || c = 'E' then ([], some rest)
      else
        let (m, e) := splitAtExp rest
        (c :: m, e)

/-- CPython underscore rule for numeric strings: every underscore must have a
digit immediately on both sides.  Helper carrying the previous character. -/
def underscoresOkGo (prev : Char) : List Char → Bool
  | [] => true
  | '_' :: [] => false
  | '_' :: d :: rest => prev.isDigit && d.isDigit && underscoresOkGo d rest
  | c :: rest => underscoresOkGo c rest

/-- CPython underscore rule over a whole numeric body. -/
def underscoresOk : List Char → Bool
  | [] => true
  | '_' :: _ => false
  | c :: rest => underscoresOkGo c rest

/-- Exact value of a decimal literal with integer digits ip, fractional
digits fp, decimal exponent ex and a sign, built with one mkRat so that it
evaluates by integer arithmetic. -/
def decimalValue (ip fp : List Char) (ex : ℤ) (neg : Bool) : ℚ :=
  let m : Nat := natOfDigits (ip ++ fp)
  let sm : ℤ := if neg then -(Int.ofNat m) else Int.ofNat m
  match ex with
  | .ofNat e => mkRat (sm * Int.ofNat (10 ^ e)) (10 ^ fp.length)
  | .negSucc e => mkRat sm (10 ^ fp.length * 10 ^ (e + 1))

/-- Exponent part of a float literal: optional sign, then at least one digit. -/
def parseExpInt (cs : List Char) : Option ℤ :=
  let (eneg, ds) :=
    match cs with
    | '+' :: rest => (false, rest)
    | '-' :: rest => (true, rest)
    | _ => (false, cs)
  if !ds.isEmpty && ds.all Char.isDigit then
    some (if eneg then -(Int.ofNat (natOfDigits ds)) else Int.ofNat (natOfDigits ds))
  else
    none

/-- Decimal part of Python float parsing: underscore rule, mantissa with at
most one dot and at least one digit, optional exponent. -/
def parseDecimalBody (body : List Char) (neg : Bool) : Option PyFloat :=
  if !underscoresOk body then none
  else
    let body := body.filter (fun c => c ≠ '_')
    let (mant, ex?) := splitAtExp body
    let (ip, fp?) := splitAtChar '.' mant
    let fp := fp?.getD []
    if !(ip.all Char.isDigit && fp.all Char.isDigit && !(ip ++ fp).isEmpty) then none
    else
      match ex? with
      | none => some (.finite (decimalValue ip fp 0 neg))
      | some ex =>
          match parseExpInt ex with
          | none => none
          | some e => some (.finite (decimalValue ip fp e neg))

/-- Python float(s) on a string: strip whitespace, optional sign, then either
a spelling of infinity or NaN (case-insensitive) or a decimal literal with
optional exponent.  Returns none where CPython raises ValueError. -/
def pyFloatOfString? (s : String) : Option PyFloat :=
  let cs := pyStripList s.toList
  let (neg, body) :=
    match cs with
    | '+' :: rest => (false, rest)
    | '-' :: rest => (true, rest)
    | _ => (false, cs)
  let lower := String.mk (body.map Char.toLower)
  if lower = "inf" || lower = "infinity" then some (.inf neg)
  else if lower = "nan" then some .nan
  else parseDecimalBody body neg

/-- A JSON value as produced by json.loads. -/
inductive JVal where
  | null
  | bool (b : Bool)
  | num (f : PyFloat)
  | str (s : String)
  | arr (elems : List JVal)
  | obj (fields : List (String × JVal))

/-- A parsed JSON object: an ordered association list, as a Python dict. -/
abbrev JObj := List (String × JVal)

/-- dict.get(key, default): first binding of the key, else the default. -/
def objGetD (l : JObj) (k : String) (d : JVal) : JVal :=
  match l.find? (fun p => p.1 = k) with
  | some p => p.2
  | none => d

/-- dict lookup returning an Option (used to state properties of records). -/
def objGet? (l : JObj) (k : String) : Option JVal :=
  (l.find? (fun p => p.1 = k)).map (fun p => p.2)

/-- dict[key] = value: replace the first binding in place, else append. -/
def objSet : JObj → String → JVal → JObj
  | [], k, v => [(k, v)]
  | (k', v') :: rest, k, v =>
      if k' = k then (k, v) :: rest else (k', v') :: objSet rest k v

/-- Python exceptions distinguished by the embedded code. -/
inductive PyErr where
  | keyError (key : String)
  | jsonDecodeError (msg : String)
  | attributeError (msg : String)
  | valueError (msg : String)
  | other (msg : String)
deriving DecidableEq, Repr

/-- str(e) for a modelled exception, where the code interpolates it. -/
def pyErrStr : PyErr → String
  | .keyError k => k
  | .jsonDecodeError m => m
  | .attributeError m => m
  | .valueError m => m
  | .other m => m

/-- The numeric cleaning of extraction.py on a string value:
raw.replace(",", "").replace("$", "").strip(), then float(), with
(ValueError, TypeError) defaulting to 0.0.  Both replace calls delete every
occurrence of a single character, so they are the filter below. -/
def amountCleanStr (s : String) : String :=
  pyStrip (String.mk (s.toList.filter (fun c => c ≠ ',' && c ≠ '$')))

/-- Parse step of the numeric cleaning: float() of the cleaned string with
the except branch defaulting to 0.0. -/
def sanitizeAmountCode (s : String) : PyFloat :=
  (pyFloatOfString? (amountCleanStr s)).getD (.finite 0)

/-- The numeric cleaning applied to the parsed total_amount JSON value.
The code computes str(data.get("total_amount", 0)) and feeds it to the
cleaning above.  For a string the str() call is the identity.  For a
number, str() renders the float and float(str(f)) returns f again (CPython
repr round-trip), and the replace/strip steps do not alter such a rendering,
so the value passes through.  For None, booleans, lists and dicts the str()
rendering (None, True, False, bracketed forms) never parses as a float, so
the except branch yields 0.0. -/
def cleanTotalAmountJ : JVal → PyFloat
  | .str s => sanitizeAmountCode s
  | .num f => f
  | _ => .finite 0

/-- Modelled from the spec: the reference sanitization of total_amount,
which the design document states as: strip every character that is not a
digit, a dot, or a minus sign, then parse as float, defaulting to 0.0 on
failure.  No such stripping exists in the code; this definition exists to
be compared with sanitizeAmountCode. -/
def sanitizeAmountSpec (s : String) : PyFloat :=
  let kept := s.toList.filter (fun c => c.isDigit || c = '.' || c = '-')
  (pyFloatOfString? (String.mk kept)).getD (.finite 0)

/-- Modelled from the spec: validity of a canonical YYYY-MM-DD date string,
used to state the date-sanitization claim.  No date validation or
sanitization exists in the code. -/
def isCanonicalDate (s : String) : Bool :=
  match s.toList with
  | [y1, y2, y3, y4, h1, mo1, mo2, h2, d1, d2] =>
      y1.isDigit && y2.isDigit && y3.isDigit && y4.isDigit &&
      h1 = '-' && h2 = '-' &&
      mo1.isDigit && mo2.isDigit && d1.isDigit && d2.isDigit &&
      (let y := natOfDigits [y1, y2, y3, y4]
       let m := natOfDigits [mo1, mo2]
       let d := natOfDigits [d1, d2]
       let leap := (y % 4 = 0 && y % 100 ≠ 0) || y % 400 = 0
       let dim :=
         if m = 2 then (if leap then 29 else 28)
         else if m = 4 || m = 6 || m = 9 || m = 11 then 30
         else 31
       decide (1 ≤ m) && decide (m ≤ 12) && decide (1 ≤ d) && decide (d ≤ dim))
  | _ => false

/-- Count of one character in a character list (str.count for 1-char needles). -/
def countChar (c : Char) (cs : List Char) : Nat :=
  (cs.filter (fun x => x = c)).length

/-- Whether one character list starts with another. -/
def listStartsWith : List Char → List Char → Bool
  | [], _ => true
  | _ :: _, [] => false
  | s :: ss, c :: cs => s = c && listStartsWith ss cs

/-- Python str.split(sep) on character lists, left-to-right, non-overlapping.
Fuel-driven so that it is structurally recursive; the fuel is the input
length, and each step consumes at least one character. -/
def splitOnFuel (sep : List Char) : Nat → List Char → List Char → List (List Char)
  | 0, acc, cs => [acc.reverse ++ cs]
  | _ + 1, acc, [] => [acc.reverse]
  | fuel + 1, acc, c :: cs =>
      if listStartsWith sep (c :: cs) then
        acc.reverse :: splitOnFuel sep fuel [] ((c :: cs).drop sep.length)
      else
        splitOnFuel sep fuel (c :: acc) cs

/-- Python str.split(sep) on strings (sep assumed nonempty, as in the code). -/
def pySplit (s sep : String) : List String :=
  (splitOnFuel sep.toList s.toList.length [] s.toList).map String.mk

/-- The opening and closing brace characters, by code point. -/
def braceOpen : Char := Char.ofNat 123

/-- The closing brace character, by code point. -/
def braceClose : Char := Char.ofNat 125

/-- Index of the first occurrence of a character (str.find, guarded use). -/
def listIndexOf (c : Char) : List Char → Nat
  | [] => 0
  | x :: xs => if x = c then 0 else listIndexOf c xs + 1

/-- Step one of the repair cascade (extraction.py): remove markdown code
fences.  Mirrors the split/index/strip calls of the source; the Python
substring test (needle in haystack) is the split producing more than one
part. -/
def stripFences (output_text : String) : String :=
  if (pySplit output_text "```json").length > 1 then
    pyStrip ((pySplit ((pySplit output_text "```json").getD 1 "") "```").getD 0 "")
  else if (pySplit output_text "```").length > 1 then
    pyStrip ((pySplit ((pySplit output_text "```").getD 1 "") "```").getD 0 "")
  else output_text

/-- Step two of the repair cascade: when both braces occur, slice to the span
from the first opening brace to the last closing brace.  Python slicing with
an end bound below the start yields the empty string, which Nat subtraction
reproduces. -/
def sliceBraces (o : String) : String :=
  let cs := o.toList
  if cs.contains braceOpen && cs.contains braceClose then
    let i := listIndexOf braceOpen cs
    let j := cs.length - 1 - listIndexOf braceClose cs.reverse
    String.mk ((cs.drop i).take (j + 1 - i))
  else o

/-- One recognized text block of a page dict, as consumed by the extraction
code (block text plus recognition confidence; the bounding polygon is
carried but never read by the embedded claims). -/
structure BlockData where
  text : String
  bbox : List (List ℚ)
  confidence : PyFloat
deriving DecidableEq

/-- One page dict of an OCR result: 1-based page number, blocks, page text. -/
structure PageData where
  page_num : Nat
  blocks : List BlockData
  text : String
deriving DecidableEq

/-- An element of a list-shaped OCR result (dict with a text key, plain
string, or anything else, which contributes nothing). -/
inductive PyListItem where
  | dict (text? : Option String)
  | str (s : String)
  | other (tname : String)

/-- The duck-typed argument of extract_invoice_data: an OCR dict, a list of
page-like items, a plain string, or an unexpected type carrying its type
name. -/
inductive OcrInput where
  | dict (full_text? : Option String) (method? : Option String) (pages : List PageData)
  | list (items : List PyListItem)
  | pystr (s : String)
  | other (tname : String)

/-- Text contributed by one list element (item.get("text", "") plus newline
for dicts, the string plus newline for strings, nothing otherwise). -/
def listItemText : PyListItem → String
  | .dict t? => t?.getD "" ++ "\n"
  | .str s => s ++ "\n"
  | .other _ => ""

/-- Input normalization of extract_invoice_data: the OCR text and method tag
for each input shape. -/
def dispatchText : OcrInput → String × String
  | .dict ft? m? _ => (ft?.getD "", m?.getD "unknown")
  | .list items => (String.join (items.map listItemText), "list_format")
  | .pystr s => (s, "legacy")
  | .other _ => ("", "error")

/-- The ocr_method recorded by the insufficient-text return: the dict method
for dict input, the literal legacy otherwise (also for list input, a quirk
of the source ternary). -/
def noTextMethod : OcrInput → String
  | .dict _ m? _ => m?.getD "unknown"
  | _ => "legacy"

/-- The ocr_method recomputed inside the JSONDecodeError handler. -/
def exceptMethod : OcrInput → String
  | .dict _ m? _ => m?.getD "unknown"
  | .list _ => "list_format"
  | _ => "legacy"

/-- The zeroed ExtractedRecord dict literal of extraction.py, shared by its
three error returns, which differ only in ocr_method and error text. -/
def emptyRecord (model_name ocr_method err : String) : JObj :=
  [("invoice_number", .str ""), ("company_name", .str ""), ("invoice_date", .str ""),
   ("total_amount", .num (.finite 0)), ("confidence", .num (.finite 0)),
   ("model_used", .str model_name), ("ocr_method", .str ocr_method),
   ("error", .str err)]

/-- Field sanitization and metadata attachment after a successful JSON
parse: clean total_amount, then set confidence, model_used and ocr_method
on the parsed dict in place. -/
def buildRecordFromData (data : JObj) (model_name : String) (conf : PyFloat)
    (ocr_method : String) : JObj :=
  let amount := cleanTotalAmountJ (objGetD data "total_amount" (.num (.finite 0)))
  let d1 := objSet data "total_amount" (.num amount)
  let d2 := objSet d1 "confidence" (.num conf)
  let d3 := objSet d2 "model_used" (.str model_name)
  objSet d3 "ocr_method" (.str ocr_method)

/-- The external capabilities of the Extraction Engine: the llama completion
call (prompt to raw completion text, or a raised exception) and the
json_repair.repair_json + json.loads composition (cleaned text to a JSON
value, or a raised exception, tagged jsonDecodeError where json.loads
fails). -/
structure LlmEnv where
  complete : String → Except PyErr String
  jsonRepairParse : String → Except PyErr JVal

/-- The try block of extraction.py around the repair cascade: strip fences,
slice to the brace span, repair-and-parse, sanitize and attach metadata.
Only json.JSONDecodeError is caught (yielding the zeroed record with the
handler ocr_method); any other exception propagates, including the
AttributeError that data.get raises when the parsed JSON value is not an
object. -/
def extractTryBlock (parse : String → Except PyErr JVal) (model_name : String)
    (conf : PyFloat) (ocr_method catch_method : String) (output_text : String) :
    Except PyErr JObj :=
  let o2 := sliceBraces (stripFences output_text)
  match parse o2 with
  | .error (.jsonDecodeError m) =>
      .ok (emptyRecord model_name catch_method ("Failed to parse: " ++ m))
  | .error e => .error e
  | .ok (.obj data) => .ok (buildRecordFromData data model_name conf ocr_method)
  | .ok _ => .error (.attributeError "get")

/-- Line filter of the local clean_text helper: keep a line when its strip
is nonempty and neither dashes nor equal signs make up more than 0.8 of it
(stated by cross-multiplication; exact for the integer counts involved). -/
def cleanTextLine (line : String) : Bool :=
  let cs := line.toList
  (pyStrip line).length > 0 &&
    !(5 * countChar '-' cs > 4 * cs.length || 5 * countChar '=' cs > 4 * cs.length)

/-- The local clean_text helper of extract_invoice_data. -/
def clean_text (text : String) : String :=
  joinSep "\n" ((pySplit text "\n").filter cleanTextLine)

/-- Placeholder names occurring in AIConfig.INVOICE_EXTRACTION_PROMPT
(config.py): the template interpolates header_text and footer_text. -/
def promptPlaceholders : List String := ["header_text", "footer_text"]

/-- Keyword arguments supplied to str.format by extract_invoice_data
(extraction.py line 118): header_slice and footer_slice. -/
def formatKwargs : List String := ["header_slice", "footer_slice"]

/-- str.format raises KeyError for the first placeholder with no matching
keyword argument; none means every placeholder is supplied. -/
def formatMissingKey (placeholders provided : List String) : Option String :=
  placeholders.find? (fun p => !(provided.contains p))

/-- The formatted main prompt.  The instruction text is abridged to its
skeleton: it feeds only the completion oracle and is never branched on, and
the surrounding format call raises before this string is ever built, since
the template placeholders do not match the supplied keyword arguments. -/
def invoicePrompt (header_text footer_text : String) : String :=
  "You are an information extraction model. Extract invoice fields from OCR text " ++
  "and return a STRICT JSON object with EXACTLY these keys: invoice_number, " ++
  "company_name, invoice_date, total_amount.\n" ++
  "Invoice OCR text (header + footer slice):\n" ++ header_text ++
  "\n\n...\n" ++ footer_text ++ "\n\nReturn ONLY the JSON object."

/-- The simplified retry prompt built from the first 2000 characters of the
OCR text. -/
def simplePrompt (excerpt : String) : String :=
  "Extract invoice data from this text and return JSON only:\n\n" ++ excerpt ++
  "\n\nReturn JSON format:\n\x7b\"invoice_number\": \"\", \"company_name\": \"\", " ++
  "\"invoice_date\": \"\", \"total_amount\": 0.0\x7d\n\nJSON:"

/-- LLMExtractor.extract_invoice_data: dispatch on the input shape, refuse
insufficient text, slice and clean header/footer, format the prompt (which
raises KeyError because the template placeholders are header_text and
footer_text while the call supplies header_slice and footer_slice), invoke
the model, retry once on unusable output, then run the repair cascade.  The
model call and the prompt formatting are outside the try block, so their
exceptions propagate to the caller. -/
def extract_invoice_data (env : LlmEnv) (model_name : String)
    (ocr_result : OcrInput) : Except PyErr JObj :=
  match ocr_result with
  | .other tname =>
      .ok (emptyRecord model_name "error" ("Unexpected OCR result type: " ++ tname))
  | inp =>
      let (ocr_text, ocr_method) := dispatchText inp
      if ocr_text = "" || (pyStrip ocr_text).length < 10 then
        .ok (emptyRecord model_name (noTextMethod inp) "No text content in OCR result")
      else
        let cs := ocr_text.toList
        let header_slice := clean_text (String.mk (cs.take (min 1200 cs.length)))
        let footer_slice :=
          if cs.length > 800 then clean_text (String.mk (cs.drop (cs.length - 800)))
          else clean_text ocr_text
        match formatMissingKey promptPlaceholders formatKwargs with
        | some k => .error (.keyError k)
        | none =>
            match env.complete (invoicePrompt header_slice footer_slice) with
            | .error e => .error e
            | .ok rawResponse =>
                let output_text := pyStrip rawResponse
                let retried : Except PyErr String :=
                  if output_text = "" || output_text.length < 10 ||
                      2 * countChar '-' output_text.toList > output_text.length then
                    match env.complete (simplePrompt (String.mk (cs.take 2000))) with
                    | .error e => .error e
                    | .ok raw2 => .ok (pyStrip raw2)
                  else .ok output_text
                match retried with
                | .error e => .error e
                | .ok output_text =>
                    extractTryBlock env.jsonRepairParse model_name
                      (.finite (mkRat 85 100)) ocr_method (exceptMethod inp) output_text

/-- The block-based prompt of extract_invoice_data_from_blocks. -/
def blocksPrompt (high_conf_text : String) : String :=
  "Extract invoice details from this OCR text.\n\nTEXT:\n" ++ high_conf_text ++
  "\n\nReturn ONLY a JSON object:\n\x7b\"invoice_number\": \"\", \"company_name\": \"\", " ++
  "\"invoice_date\": \"\", \"total_amount\": 0.0\x7d\n\nJSON:"

/-- LLMExtractor.extract_invoice_data_from_blocks: for a paddleocr dict,
prompt from the top 30 blocks above 0.7 confidence and run the same repair
cascade with confidence 0.90 and ocr_method paddleocr_blocks; any other
input falls back to extract_invoice_data.  The model call is again outside
the try block. -/
def extract_invoice_data_from_blocks (env : LlmEnv) (model_name : String)
    (ocr_result : OcrInput) : Except PyErr JObj :=
  match ocr_result with
  | .dict ft? m? pages =>
      if m? = some "paddleocr" then
        let important_blocks :=
          (pages.map (fun pg =>
            (pg.blocks.filter
              (fun b => PyFloat.gtF b.confidence (.finite (mkRat 7 10)))).map
              (fun b => b.text))).flatten
        let high_conf_text := joinSep "\n" (important_blocks.take 30)
        match env.complete (blocksPrompt high_conf_text) with
        | .error e => .error e
        | .ok raw =>
            extractTryBlock env.jsonRepairParse model_name (.finite (mkRat 90 100))
              "paddleocr_blocks" "paddleocr_blocks" (pyStrip raw)
      else extract_invoice_data env model_name (.dict ft? m? pages)
  | inp => extract_invoice_data env model_name inp

/-- Decimal rendering of a Nat (str(n) and f-string interpolation of an
int), fuel-driven so that it evaluates by kernel reduction. -/
def natToStrAux : Nat → Nat → List Char
  | 0, _ => []
  | fuel + 1, n =>
      if n < 10 then [Char.ofNat (48 + n)]
      else natToStrAux fuel (n / 10) ++ [Char.ofNat (48 + n % 10)]

/-- Decimal rendering of a Nat as a string. -/
def natToStr (n : Nat) : String :=
  String.mk (natToStrAux (n + 1) n)

/-- The page banner interpolated into full_text by ocr.py, for a 1-based
page number. -/
def pageBanner (n : Nat) (t : String) : String :=
  "--- PAGE " ++ natToStr n ++ " ---\n" ++ t

/-- A handle on one PDF document together with the two external page
capabilities used by ocr.py: PaddleOCR recognition of a page (ocr.predict
inside _process_single_page, distilled to the usable text blocks, or a
raised exception, which also stands for a failing page access) and PyMuPDF
native text access (page.get_text, or a raised exception). -/
structure OcrDoc where
  numPages : Nat
  recognizePage : Nat → Except PyErr (List BlockData)
  nativeText : Nat → Except PyErr String

/-- The repository part of _process_single_page: keep the blocks with
nonempty text, join their texts with newlines, record the 1-based page
number. -/
def processSinglePage (recOut : List BlockData) (page_num : Nat) : PageData :=
  let kept := recOut.filter (fun b => b.text ≠ "")
  { page_num := page_num + 1, blocks := kept,
    text := joinSep "\n" (kept.map (fun b => b.text)) }

/-- The ocr_results dict built by perform_ocr and mutated by the background
worker.  The source error result carries no total_pages or background_error
key; those are 0 and none here. -/
structure OcrState where
  method : String
  pages : List PageData
  total_pages : Nat
  full_text : String
  background_complete : Bool
  background_error : Option String
  error : Option String
deriving DecidableEq

/-- The fallback loop of perform_ocr: native text of each page in order;
an exception on any page discards the collected pages and surfaces. -/
def nativeTexts (doc : OcrDoc) : List Nat → Except PyErr (List String)
  | [] => .ok []
  | i :: rest =>
      match doc.nativeText i with
      | .error e => .error e
      | .ok t =>
          match nativeTexts doc rest with
          | .error e => .error e
          | .ok ts => .ok (t :: ts)

/-- perform_ocr (ocr.py): recognize page 1 synchronously and return at once
with background_complete false when further pages remain (the spawned
worker is modelled separately by background_ocr_worker); when page-1
recognition raises, fall back to native extraction of every page; when the
fallback also raises, return the error result quoting the original
recognition error.  The file-existence check and fitz.open precede the
modelled region. -/
def perform_ocr (doc : OcrDoc) (max_pages : Nat) : OcrState :=
  let pages_to_process := min doc.numPages max_pages
  let fastPath : Except PyErr PageData :=
    if doc.numPages = 0 then .error (.other "IndexError: page 0 is out of range")
    else
      match doc.recognizePage 0 with
      | .error e => .error e
      | .ok blocks => .ok (processSinglePage blocks 0)
  match fastPath with
  | .ok p1 =>
      { method := "paddleocr_optimized", pages := [p1], total_pages := pages_to_process,
        full_text := "--- PAGE 1 ---\n" ++ p1.text,
        background_complete := decide (pages_to_process ≤ 1),
        background_error := none, error := none }
  | .error e =>
      match nativeTexts doc (List.range pages_to_process) with
      | .ok ts =>
          { method := "pymupdf_fallback",
            pages := ts.enum.map (fun p => { page_num := p.1 + 1, blocks := [], text := p.2 }),
            total_pages := pages_to_process,
            full_text := joinSep "\n\n" (ts.enum.map (fun p => pageBanner (p.1 + 1) p.2)),
            background_complete := true, background_error := none, error := none }
      | .error _ =>
          { method := "error", pages := [], total_pages := 0, full_text := "",
            background_complete := true, background_error := none,
            error := some (pyErrStr e) }

/-- One iteration of the background worker: append the page dict, then
append the page banner and text to full_text (page_num is the 0-based loop
variable of the source). -/
def bgAppendPage (s : OcrState) (page_num : Nat) (pd : PageData) : OcrState :=
  { s with pages := s.pages ++ [pd],
           full_text := s.full_text ++ "\n\n" ++ pageBanner (page_num + 1) pd.text }

/-- The loop of _background_ocr_worker over the remaining page indices: a
recognition exception sets background_error and stops, leaving collected
pages in place; finishing the loop sets background_complete. -/
def bgLoop (doc : OcrDoc) : List Nat → OcrState → OcrState
  | [], s => { s with background_complete := true }
  | i :: rest, s =>
      match doc.recognizePage i with
      | .error e => { s with background_error := some (pyErrStr e) }
      | .ok blocks => bgLoop doc rest (bgAppendPage s i (processSinglePage blocks i))

/-- _background_ocr_worker(doc, ocr, start_page, end_page, ...): process the
index range start_page..end_page-1 against the shared result state. -/
def background_ocr_worker (doc : OcrDoc) (start_page end_page : Nat) (s : OcrState) : OcrState :=
  bgLoop doc (List.range' start_page (end_page - start_page)) s

/-- The decorated text one page contributes to full_text. -/
def decoratePage (p : PageData) : String :=
  pageBanner p.page_num p.text

/-- The shape full_text actually has on every path of ocr.py: the
double-newline join of the banner-decorated page texts, in page order. -/
def fullTextInv (s : OcrState) : Prop :=
  s.full_text = joinSep "\n\n" (s.pages.map decoratePage)

/-- The SharePoint list row written by sharepoint.py (the fields dict of
create_or_update_item).  The Graph fields payload also carries the list
item identity used for updates; it lives in SPItem. -/
structure SPFields where
  NodeID : String
  Filename : String
  GCDocsURL : String
  AI_InvoiceNumber : String
  AI_InvoiceDate : String
  AI_CompanyName : String
  AI_TotalAmount : PyFloat
  AI_Processed : Bool
  AI_Confidence : PyFloat
  OCR_Method : String
  LLM_Used : String
  Time_Taken : PyFloat
  Human_InvoiceNumber : String
  Human_InvoiceDate : String
  Human_CompanyName : String
  Human_TotalAmount : PyFloat
  Human_Validated : Bool
  Human_Flagged : Bool
  Human_Notes : String
deriving DecidableEq, Repr

/-- One stored list item: the server item identity plus its fields. -/
structure SPItem where
  id : Nat
  fields : SPFields
deriving DecidableEq, Repr

/-- The remote list: stored items in server order, and the next item
identity the server will assign on create. -/
structure SPStore where
  items : List SPItem
  nextId : Nat
deriving DecidableEq, Repr

/-- The clean_float helper of create_or_update_item: float(val), coercing
NaN and infinities to 0.0; the bare except also maps unconvertible values
to 0.0 (the typed metadata below always carries floats, where float() is
the identity). -/
def clean_float (f : PyFloat) : PyFloat :=
  match f with
  | .finite q => .finite q
  | _ => .finite 0

/-- The metadata dict accepted by create_or_update_item, with one optional
entry per key the method reads; a missing key makes metadata.get take the
default.  The extra pages_processed and ocr_chars keys passed by the
processing route are never read and are not modelled. -/
structure SPMetadata where
  ai_invoice_number : Option String := none
  ai_invoice_date : Option String := none
  ai_company_name : Option String := none
  ai_total_amount : Option PyFloat := none
  ai_processed : Option Bool := none
  ai_confidence : Option PyFloat := none
  ocr_method : Option String := none
  llm_used : Option String := none
  time_taken : Option PyFloat := none
  human_invoice_number : Option String := none
  human_invoice_date : Option String := none
  human_company_name : Option String := none
  human_total_amount : Option PyFloat := none
  human_validated : Option Bool := none
  human_flagged : Option Bool := none
  human_notes : Option String := none

/-- The fields dict literal of create_or_update_item: every column is
written, with metadata.get defaults for the missing keys and clean_float
on the numeric columns. -/
def buildFields (node_id : Nat) (filename gcdocs_url : String) (m : SPMetadata) : SPFields :=
  { NodeID := natToStr node_id,
    Filename := filename,
    GCDocsURL := gcdocs_url,
    AI_InvoiceNumber := m.ai_invoice_number.getD "",
    AI_InvoiceDate := m.ai_invoice_date.getD "",
    AI_CompanyName := m.ai_company_name.getD "",
    AI_TotalAmount := clean_float (m.ai_total_amount.getD (.finite 0)),
    AI_Processed := m.ai_processed.getD false,
    AI_Confidence := clean_float (m.ai_confidence.getD (.finite 0)),
    OCR_Method := m.ocr_method.getD "",
    LLM_Used := m.llm_used.getD "",
    Time_Taken := clean_float (m.time_taken.getD (.finite 0)),
    Human_InvoiceNumber := m.human_invoice_number.getD "",
    Human_InvoiceDate := m.human_invoice_date.getD "",
    Human_CompanyName := m.human_company_name.getD "",
    Human_TotalAmount := clean_float (m.human_total_amount.getD (.finite 0)),
    Human_Validated := m.human_validated.getD false,
    Human_Flagged := m.human_flagged.getD false,
    Human_Notes := m.human_notes.getD "" }

/-- get_all_items: the fields of every stored item, in server order. -/
def get_all_items (st : SPStore) : List SPFields :=
  st.items.map (fun it => it.fields)

/-- The server-side filtered lookup of get_item_by_node_id: the items whose
NodeID field equals str(node_id), first one if any. -/
def get_item_by_node_id_filtered (st : SPStore) (node_id : Nat) : Option SPItem :=
  (st.items.filter (fun it => it.fields.NodeID = natToStr node_id)).head?

/-- The client-side fallback of get_item_by_node_id: scan the full item
collection for the first matching NodeID. -/
def get_item_by_node_id_fallback (st : SPStore) (node_id : Nat) : Option SPItem :=
  st.items.find? (fun it => it.fields.NodeID = natToStr node_id)

/-- get_item_by_node_id: the filtered query, or the fallback scan when the
store rejects the filtered query (filterRejected). -/
def get_item_by_node_id (st : SPStore) (filterRejected : Bool) (node_id : Nat) : Option SPItem :=
  if filterRejected then get_item_by_node_id_fallback st node_id
  else get_item_by_node_id_filtered st node_id

/-- create_or_update_item: build the full fields dict, look the item up by
NodeID, then PATCH the found item identity with the whole dict, or POST a
new item.  Transport failures raise and are outside this success-path
model. -/
def create_or_update_item (st : SPStore) (filterRejected : Bool) (node_id : Nat)
    (filename gcdocs_url : String) (metadata : SPMetadata) : SPStore :=
  let fields := buildFields node_id filename gcdocs_url metadata
  match get_item_by_node_id st filterRejected node_id with
  | some existing_item =>
      { st with items := st.items.map (fun x =>
          if x.id = existing_item.id then { x with fields := fields } else x) }
  | none =>
      { items := st.items ++ [{ id := st.nextId, fields := fields }],
        nextId := st.nextId + 1 }

/-- The metadata dict built by the processing route (routes/processing.py,
the create_or_update_item call after extraction): AI values, provenance and
timing only — no human key appears in the dict. -/
def aiUpsertMetadata (inv comp date : String) (amount conf : PyFloat)
    (ocr_m llm_u : String) (time_taken : PyFloat) : SPMetadata :=
  { ai_invoice_number := some inv,
    ai_company_name := some comp,
    ai_invoice_date := some date,
    ai_total_amount := some amount,
    ai_confidence := some conf,
    ai_processed := some true,
    ocr_method := some ocr_m,
    llm_used := some llm_u,
    time_taken := some time_taken }

/-- The body of a validation write request (routes/api.py save_validation),
with the request defaults; total_amount is a JSON number, on which the
float() call is the identity. -/
structure ValidationRequest where
  invoice_number : String := ""
  company_name : String := ""
  invoice_date : String := ""
  total_amount : PyFloat := .finite 0
  notes : String := ""
  flagged : Bool := false

/-- save_validation (routes/api.py): look up the current item, rebuild the
metadata with the existing AI and provenance values and the human values of
the request plus human_validated true, and upsert; a missing item returns
the 404 error instead. -/
def save_validation (st : SPStore) (filterRejected : Bool) (node_id : Nat)
    (req : ValidationRequest) : Except String SPStore :=
  match get_item_by_node_id st filterRejected node_id with
  | none => .error "Invoice not found"
  | some existing =>
      let metadata : SPMetadata :=
        { ai_invoice_number := some existing.fields.AI_InvoiceNumber,
          ai_company_name := some existing.fields.AI_CompanyName,
          ai_invoice_date := some existing.fields.AI_InvoiceDate,
          ai_total_amount := some existing.fields.AI_TotalAmount,
          ai_confidence := some existing.fields.AI_Confidence,
          ai_processed := some existing.fields.AI_Processed,
          ocr_method := some existing.fields.OCR_Method,
          llm_used := some existing.fields.LLM_Used,
          time_taken := some existing.fields.Time_Taken,
          human_invoice_number := some req.invoice_number,
          human_company_name := some req.company_name,
          human_invoice_date := some req.invoice_date,
          human_total_amount := some req.total_amount,
          human_notes := some req.notes,
          human_validated := some true,
          human_flagged := some req.flagged }
      .ok (create_or_update_item st filterRejected node_id
            existing.fields.Filename existing.fields.GCDocsURL metadata)

/-- An OCR dict with usable text, used to exercise extract_invoice_data. -/
def usableTextInput : OcrInput :=
  .dict (some "INVOICE NUMBER 12345 TOTAL 50.00") (some "native") []

/-- A page-1 recognition result used by the concrete OCR runs. -/
def demoBlocks : List BlockData :=
  [{ text := "scanned line", bbox := [], confidence := .finite (mkRat 95 100) }]

/-- A 100-character native text, far above any plausible character
threshold (the design document discusses a threshold of 25 in its test
scenario; no threshold constant exists in the code). -/
def richNativeText : String :=
  String.mk (List.replicate 100 'a')

/-- A document whose native text is rich and whose recognition succeeds. -/
def richNativeDoc : OcrDoc :=
  { numPages := 1,
    recognizePage := fun _ => .ok demoBlocks,
    nativeText := fun _ => .ok richNativeText }

/-- A two-page document with successful recognition on both pages, used to
exercise the background worker. -/
def twoPageDoc : OcrDoc :=
  { numPages := 2,
    recognizePage := fun i =>
      .ok [{ text := "line " ++ natToStr (i + 1), bbox := [], confidence := .finite (mkRat 9 10) }],
    nativeText := fun _ => .ok "native" }

/-- A paddleocr OCR dict fed to the block-based extraction runs. -/
def paddlePages : List PageData :=
  [{ page_num := 1,
     blocks := [{ text := "INVOICE", bbox := [], confidence := .finite (mkRat 9 10) }],
     text := "INVOICE" }]

/-- The raw completion of the malformed-date run: syntactically valid JSON
whose invoice_date is not a canonical date. -/
def demoDateRaw : String :=
  "\x7b\"invoice_number\": \"A1\", \"company_name\": \"ACME\", " ++
  "\"invoice_date\": \"13/45/2020\", \"total_amount\": \"10\"\x7d"

/-- The object json.loads yields for demoDateRaw. -/
def demoDateObj : JObj :=
  [("invoice_number", .str "A1"), ("company_name", .str "ACME"),
   ("invoice_date", .str "13/45/2020"), ("total_amount", .str "10")]

/-- A concrete extraction environment for the malformed-date run: the
completion returns demoDateRaw and the repair-parse behaves as json_repair
plus json.loads does on the strings this run produces. -/
def demoDateEnv : LlmEnv :=
  { complete := fun _ => .ok demoDateRaw,
    jsonRepairParse := fun s =>
      if s = demoDateRaw then .ok (.obj demoDateObj)
      else .error (.jsonDecodeError "Expecting value: line 1 column 1 (char 0)") }

/-- The paddleocr input fed to the concrete block-based extraction runs. -/
def paddleInput : OcrInput :=
  .dict (some "INVOICE") (some "paddleocr") paddlePages

/-- The record the malformed-date run returns. -/
def demoDateRecord : JObj :=
  [("invoice_number", .str "A1"), ("company_name", .str "ACME"),
   ("invoice_date", .str "13/45/2020"), ("total_amount", .num (.finite (mkRat 10 1))),
   ("confidence", .num (.finite (mkRat 90 100))),
   ("model_used", .str "mistral-7b.gguf"), ("ocr_method", .str "paddleocr_blocks")]

/-- The raw completion of the NaN run: valid JSON whose total_amount is the
string nan, which Python float() accepts. -/
def nanRaw : String :=
  "\x7b\"invoice_number\": \"B2\", \"company_name\": \"Acme\", " ++
  "\"invoice_date\": \"2024-05-05\", \"total_amount\": \"nan\"\x7d"

/-- The object json.loads yields for nanRaw. -/
def nanObj : JObj :=
  [("invoice_number", .str "B2"), ("company_name", .str "Acme"),
   ("invoice_date", .str "2024-05-05"), ("total_amount", .str "nan")]

/-- A concrete extraction environment for the NaN run. -/
def nanEnv : LlmEnv :=
  { complete := fun _ => .ok nanRaw,
    jsonRepairParse := fun s =>
      if s = nanRaw then .ok (.obj nanObj)
      else .error (.jsonDecodeError "Expecting value: line 1 column 1 (char 0)") }

/-- The record the NaN run returns: its total_amount is NaN. -/
def nanRecord : JObj :=
  [("invoice_number", .str "B2"), ("company_name", .str "Acme"),
   ("invoice_date", .str "2024-05-05"), ("total_amount", .num .nan),
   ("confidence", .num (.finite (mkRat 90 100))),
   ("model_used", .str "mistral-7b.gguf"), ("ocr_method", .str "paddleocr_blocks")]

/-- A stored row carrying nonempty human-validation values and AI defaults,
as a row looks after validation but before AI processing. -/
def validatedFields : SPFields :=
  { NodeID := "42", Filename := "inv.pdf", GCDocsURL := "u",
    AI_InvoiceNumber := "", AI_InvoiceDate := "", AI_CompanyName := "",
    AI_TotalAmount := .finite 0, AI_Processed := false, AI_Confidence := .finite 0,
    OCR_Method := "", LLM_Used := "", Time_Taken := .finite 0,
    Human_InvoiceNumber := "H-77", Human_InvoiceDate := "2024-01-31",
    Human_CompanyName := "ACME", Human_TotalAmount := .finite (mkRat 5 1),
    Human_Validated := true, Human_Flagged := true,
    Human_Notes := "checked by clerk" }

/-- A store holding the validated row. -/
def validatedStore : SPStore :=
  { items := [{ id := 7, fields := validatedFields }], nextId := 8 }

/-- The store after the processing route re-runs AI extraction on that
document and upserts with AI-only metadata. -/
def aiReprocessedStore : SPStore :=
  create_or_update_item validatedStore false 42 "inv.pdf" "u"
    (aiUpsertMetadata "INV-1" "ACME" "2024-02-02" (.finite (mkRat 99 1))
      (.finite (mkRat 85 100)) "paddleocr_optimized" "mistral-7b.gguf"
      (.finite (mkRat 3 1)))

/-- A store with one unrelated row, used by the idempotent-upsert witness. -/
def witnessStore : SPStore :=
  { items := [{ id := 3, fields := { validatedFields with NodeID := "9" } }], nextId := 4 }

/-- A row with finite AI numeric fields, used by the validation witness. -/
def aiProcessedFields : SPFields :=
  { NodeID := "42", Filename := "inv.pdf", GCDocsURL := "u",
    AI_InvoiceNumber := "INV-1", AI_InvoiceDate := "2024-02-02",
    AI_CompanyName := "ACME", AI_TotalAmount := .finite (mkRat 99 1),
    AI_Processed := true, AI_Confidence := .finite (mkRat 85 100),
    OCR_Method := "paddleocr_optimized", LLM_Used := "mistral-7b.gguf",
    Time_Taken := .finite (mkRat 3 1),
    Human_InvoiceNumber := "", Human_InvoiceDate := "", Human_CompanyName := "",
    Human_TotalAmount := .finite 0, Human_Validated := false,
    Human_Flagged := false, Human_Notes := "" }

/-- A store holding the AI-processed row. -/
def aiProcessedStore : SPStore :=
  { items := [{ id := 7, fields := aiProcessedFields }], nextId := 8 }

/-- A concrete validation request. -/
def demoValidation : ValidationRequest :=
  { invoice_number := "INV-1", company_name := "ACME Corp",
    invoice_date := "2024-02-03", total_amount := .finite (mkRat 100 1),
    notes := "adjusted", flagged := false }

theorem head?_filter_eq_find? {α} (p : α → Bool) (l : List α) :
    (l.filter p).head? = l.find? p := by
  induction l with
  | nil => rfl
  | cons a t ih => by_cases h : p a <;> simp [List.filter_cons, List.find?, h, ih]

theorem clean_float_finite (f : PyFloat) (h : f.isFinite = true) : clean_float f = f := by
  cases f <;> simp_all [clean_float, PyFloat.isFinite]

theorem joinSep_append_singleton (sep x : String) (l : List String) (h : l ≠ []) :
    joinSep sep (l ++ [x]) = joinSep sep l ++ sep ++ x := by
  induction l with
  | nil => cases h rfl
  | cons a t ih =>
      cases t with
      | nil => simp [joinSep]
      | cons b u =>
          have h2 := ih (by simp)
          calc joinSep sep (a :: b :: u ++ [x])
              = a ++ sep ++ joinSep sep (b :: u ++ [x]) := rfl
            _ = a ++ sep ++ (joinSep sep (b :: u) ++ sep ++ x) := by rw [h2]
            _ = (a ++ sep ++ joinSep sep (b :: u)) ++ sep ++ x := by
                  simp [String.append_assoc]
            _ = joinSep sep (a :: b :: u) ++ sep ++ x := rfl

theorem objGet?_objSet_ne (l : JObj) (k k' : String) (v : JVal) (h : k' ≠ k) :
    objGet? (objSet l k' v) k = objGet? l k := by
  induction l with
  | nil => simp [objSet, objGet?, List.find?, h]
  | cons a t ih =>
      rcases a with ⟨ak, av⟩
      by_cases ha : ak = k'
      · subst ha
        simp [objSet, objGet?, List.find?, h, Ne.symm h]
      · have e1 : objSet ((ak, av) :: t) k' v = (ak, av) :: objSet t k' v := by
          simp [objSet, ha]
        by_cases hk : ak = k
        · rw [e1]
          simp [objGet?, List.find?, hk]
        · rw [e1]
          simpa [objGet?, List.find?, hk] using ih

/-- C10: for every store state and document identifier, the server-side
filtered lookup of get_item_by_node_id and its client-side full-collection
fallback return the same item, so a store that rejects the filtered query
makes the fallback produce a result identical to what the filtered path
would have produced, and the rejection flag never changes the outcome. -/
theorem get_item_by_node_id_filtered_eq_fallback (st : SPStore) (node_id : Nat)
    (filterRejected : Bool) :
    get_item_by_node_id_filtered st node_id = get_item_by_node_id_fallback st node_id ∧
    get_item_by_node_id st filterRejected node_id = get_item_by_node_id_filtered st node_id := by
  refine ⟨?_, ?_⟩
  · simp [get_item_by_node_id_filtered, get_item_by_node_id_fallback, head?_filter_eq_find?]
  · cases filterRejected <;>
      simp [get_item_by_node_id, get_item_by_node_id_filtered, get_item_by_node_id_fallback,
        head?_filter_eq_find?]

/-- C5 counterexample: the numeric sanitization of the code is not the
reference strip-every-non-digit definition of the spec: on the string CAD
1234 the code removes only commas and dollar signs, float() fails on the
remaining letters and spaces, and the default 0.0 is returned, while the
reference definition strips to 1234 and parses it. -/
theorem sanitizeAmount_code_ne_spec_reference :
    sanitizeAmountCode "CAD 1234" = .finite 0 ∧
    sanitizeAmountSpec "CAD 1234" = .finite (mkRat 1234 1) ∧
    sanitizeAmountCode "CAD 1234" ≠ sanitizeAmountSpec "CAD 1234" := by decide

/-- C5 (amended): the sanitization of total_amount removes commas and
dollar signs and trims surrounding whitespace before float parsing (not
every non-digit character), defaulting to 0.0 on parse failure; on the
malformed strings of the claim it yields 1234.56, 0.0 and 0.0, each a
finite float. -/
theorem sanitizeAmount_examples :
    sanitizeAmountCode "$1,234.56" = .finite (mkRat 123456 100) ∧
    (sanitizeAmountCode "$1,234.56").isFinite = true ∧
    sanitizeAmountCode "N/A" = .finite 0 ∧
    (sanitizeAmountCode "N/A").isFinite = true ∧
    sanitizeAmountCode "" = .finite 0 ∧
    (sanitizeAmountCode "").isFinite = true := by decide

/-- C1: extract_invoice_data raises to its caller instead of returning a
record: for every completion environment and model name, the usable-text
input reaches the prompt formatting, whose template placeholders
(header_text, footer_text) do not match the supplied keyword arguments
(header_slice, footer_slice), and str.format raises KeyError, which no
handler catches; the claim that extraction never raises fails here. -/
theorem extract_invoice_data_raises_keyerror (env : LlmEnv) (model_name : String) :
    extract_invoice_data env model_name usableTextInput =
      .error (.keyError "header_text") := rfl

/-- C3: the AI-(re)processing upsert of the processing route overwrites the
human fields: create_or_update_item writes every column, and the AI-only
metadata dict makes every human column take its default, so the stored
human values (here a validated, flagged row with notes) are replaced by
empty strings, zero and false. -/
theorem ai_upsert_overwrites_human_fields :
    (aiReprocessedStore.items.find? (fun x => x.id = 7)).map
        (fun x => (x.fields.Human_InvoiceNumber, x.fields.Human_InvoiceDate,
                   x.fields.Human_CompanyName, x.fields.Human_TotalAmount,
                   x.fields.Human_Validated, x.fields.Human_Flagged,
                   x.fields.Human_Notes)) =
      some ("", "", "", .finite 0, false, false, "") ∧
    validatedFields.Human_Notes = "checked by clerk" ∧
    validatedFields.Human_Validated = true ∧
    validatedFields.Human_Flagged = true := ⟨rfl, rfl, rfl, rfl⟩

theorem pageBanner_one (t : String) : pageBanner 1 t = "--- PAGE 1 ---\n" ++ t := rfl

/-- C2 counterexample: perform_ocr never consults native text before
recognizing: on a document whose native embedded text has 100 characters,
above any configured threshold (none exists in the code; the design
document uses 25 in its scenario), successful recognition makes the
returned method the recognition-engine method. -/
theorem perform_ocr_ignores_rich_native_text :
    (perform_ocr richNativeDoc 5).method = "paddleocr_optimized" ∧
    richNativeDoc.nativeText 0 = .ok richNativeText ∧
    richNativeText.length = 100 :=
  ⟨rfl, rfl, by decide⟩

/-- C2 (amended): perform_ocr always attempts the recognition engine first,
regardless of the native embedded text of the document: whenever the
document is nonempty and page-1 recognition succeeds, the returned method
is the recognition method paddleocr_optimized; native extraction is only
the fallback on recognition failure. -/
theorem perform_ocr_method_of_recognition_success (doc : OcrDoc) (max_pages : Nat)
    (blocks : List BlockData) (hnz : doc.numPages ≠ 0)
    (hrec : doc.recognizePage 0 = .ok blocks) :
    (perform_ocr doc max_pages).method = "paddleocr_optimized" := by
  simp [perform_ocr, hnz, hrec]

/-- Witness for the amended C2 theorem at the rich-native-text document. -/
theorem perform_ocr_method_witness :
    richNativeDoc.numPages ≠ 0 ∧
    (perform_ocr richNativeDoc 5).method = "paddleocr_optimized" :=
  ⟨by decide,
   perform_ocr_method_of_recognition_success richNativeDoc 5 demoBlocks (by decide) rfl⟩

/-- C7 counterexample: full_text is not the plain ordered concatenation of
the page texts: already after the fast path on a one-page run it carries
the page banner prefix, so it differs from the bare concatenation. -/
theorem full_text_not_plain_concatenation :
    (perform_ocr twoPageDoc 1).full_text ≠
      String.join ((perform_ocr twoPageDoc 1).pages.map (fun p => p.text)) := by decide

/-- C7 (amended): on every path of perform_ocr, and at every completed
iteration of the background worker, full_text equals the double-newline
join of the banner-decorated page texts of the pages currently present, in
order (each page contributes the banner --- PAGE n --- plus its text, not
the bare text); the background loop preserves this invariant step by step
together with nonemptiness of the page list, also when a recognition error
stops it. -/
theorem full_text_decorated_join_invariant :
    (∀ doc max_pages, fullTextInv (perform_ocr doc max_pages)) ∧
    (∀ doc idxs s, fullTextInv s → s.pages ≠ [] →
      fullTextInv (bgLoop doc idxs s) ∧ (bgLoop doc idxs s).pages ≠ []) := by
  constructor
  · intro doc max_pages
    by_cases hz : doc.numPages = 0
    · simp [perform_ocr, hz, nativeTexts, fullTextInv, joinSep]
    · cases hrec : doc.recognizePage 0 with
      | ok blocks =>
          simp [perform_ocr, hz, hrec, fullTextInv, joinSep, decoratePage,
            processSinglePage, pageBanner_one]
      | error e =>
          cases hnt : nativeTexts doc (List.range (min doc.numPages max_pages)) with
          | ok ts =>
              simp only [perform_ocr, if_neg hz, hrec, hnt, fullTextInv,
                List.map_map]
              rfl
          | error e2 => simp [perform_ocr, hz, hrec, hnt, fullTextInv, joinSep]
  · intro doc idxs
    induction idxs with
    | nil =>
        intro s h hp
        exact ⟨by simpa [bgLoop, fullTextInv] using h, by simpa [bgLoop] using hp⟩
    | cons i rest ih =>
        intro s h hp
        cases hrec : doc.recognizePage i with
        | error e =>
            refine ⟨?_, ?_⟩
            · simpa [bgLoop, hrec, fullTextInv] using h
            · simpa [bgLoop, hrec] using hp
        | ok blocks =>
            have hmap : s.pages.map decoratePage ≠ [] := by
              intro hc
              exact hp (List.map_eq_nil_iff.mp hc)
            have hstep : fullTextInv (bgAppendPage s i (processSinglePage blocks i)) := by
              unfold fullTextInv bgAppendPage
              simp only [List.map_append, List.map_cons, List.map_nil]
              rw [joinSep_append_singleton _ _ _ hmap, ← h]
              rfl
            have hne : (bgAppendPage s i (processSinglePage blocks i)).pages ≠ [] := by
              simp [bgAppendPage]
            have := ih (bgAppendPage s i (processSinglePage blocks i)) hstep hne
            simpa [bgLoop, hrec] using this

/-- Witness for the amended C7 theorem: a completed background iteration on
the two-page document, started from the fast-path result. -/
theorem full_text_invariant_witness :
    fullTextInv (background_ocr_worker twoPageDoc 1 2 (perform_ocr twoPageDoc 2)) :=
  (full_text_decorated_join_invariant.2 twoPageDoc (List.range' 1 (2 - 1))
    (perform_ocr twoPageDoc 2)
    (full_text_decorated_join_invariant.1 twoPageDoc 2) (by decide)).1

/-- C4 counterexample: a full block-based extraction run whose completion
is valid JSON carrying the malformed date 13/45/2020 returns a record
whose invoice_date is the passthrough of that malformed string: neither
null nor a canonical YYYY-MM-DD date. -/
theorem extract_passes_through_malformed_date :
    extract_invoice_data_from_blocks demoDateEnv "mistral-7b.gguf" paddleInput =
      .ok demoDateRecord ∧
    objGet? demoDateRecord "invoice_date" = some (.str "13/45/2020") ∧
    isCanonicalDate "13/45/2020" = false ∧
    JVal.str "13/45/2020" ≠ JVal.null :=
  ⟨rfl, rfl, by decide, fun h => JVal.noConfusion h⟩

/-- C4 (amended): the Extraction Engine performs no date sanitization:
whenever the repair cascade parses the completion to a JSON object, the
invoice_date value of that object is passed into the returned record
exactly as parsed, since the post-parse writes touch only total_amount,
confidence, model_used and ocr_method. -/
theorem invoice_date_passthrough (parse : String → Except PyErr JVal)
    (model_name : String) (conf : PyFloat)
    (ocr_method catch_method output_text : String) (data : JObj) (v : JVal)
    (hparse : parse (sliceBraces (stripFences output_text)) = .ok (.obj data))
    (hdate : objGet? data "invoice_date" = some v) :
    ∃ rec, extractTryBlock parse model_name conf ocr_method catch_method output_text =
        .ok rec ∧ objGet? rec "invoice_date" = some v := by
  refine ⟨buildRecordFromData data model_name conf ocr_method, ?_, ?_⟩
  · simp [extractTryBlock, hparse]
  · simp only [buildRecordFromData]
    rw [objGet?_objSet_ne _ _ _ _ (by decide), objGet?_objSet_ne _ _ _ _ (by decide),
      objGet?_objSet_ne _ _ _ _ (by decide), objGet?_objSet_ne _ _ _ _ (by decide)]
    exact hdate

/-- Witness for the amended C4 theorem at the malformed-date run. -/
theorem invoice_date_passthrough_witness :
    ∃ rec, extractTryBlock demoDateEnv.jsonRepairParse "mistral-7b.gguf"
        (.finite (mkRat 90 100)) "paddleocr_blocks" "paddleocr_blocks" demoDateRaw =
        .ok rec ∧ objGet? rec "invoice_date" = some (.str "13/45/2020") :=
  invoice_date_passthrough demoDateEnv.jsonRepairParse "mistral-7b.gguf"
    (.finite (mkRat 90 100)) "paddleocr_blocks" "paddleocr_blocks" demoDateRaw
    demoDateObj (.str "13/45/2020") rfl rfl

/-- C6 counterexample: a full block-based extraction run whose completion
says total_amount is the string nan returns a record whose total_amount is
NaN, because Python float() accepts that spelling: the finiteness
invariant fails on this record. -/
theorem extract_returns_nan_total :
    extract_invoice_data_from_blocks nanEnv "mistral-7b.gguf" paddleInput =
      .ok nanRecord ∧
    objGet? nanRecord "total_amount" = some (.num .nan) ∧
    PyFloat.nan.isFinite = false :=
  ⟨rfl, rfl, rfl⟩

/-- C6 (amended): the sanitized total_amount is always a well-defined
float; it is finite unless the parsed JSON value itself denotes NaN or an
infinity (a string that float() accepts as a special spelling, or a
non-finite number), which passes through; and whenever float parsing of
the cleaned string fails the result is exactly 0.0. -/
theorem clean_total_amount_finite_unless_special :
    (∀ v : JVal, (cleanTotalAmountJ v).isFinite = true ∨
      (∃ s, v = .str s ∧
        pyFloatOfString? (amountCleanStr s) = some (cleanTotalAmountJ v)) ∨
      v = .num (cleanTotalAmountJ v)) ∧
    (∀ s, pyFloatOfString? (amountCleanStr s) = none →
      sanitizeAmountCode s = .finite 0) := by
  constructor
  · intro v
    cases v with
    | str s =>
        cases hp : pyFloatOfString? (amountCleanStr s) with
        | none =>
            left
            simp [cleanTotalAmountJ, sanitizeAmountCode, hp, PyFloat.isFinite]
        | some f =>
            right; left
            exact ⟨s, rfl, by simp [cleanTotalAmountJ, sanitizeAmountCode, hp]⟩
    | num f => right; right; rfl
    | null => left; rfl
    | bool b => left; rfl
    | arr es => left; rfl
    | obj fs => left; rfl
  · intro s h
    simp [sanitizeAmountCode, h]

/-- Witness for the amended C6 theorem at a parse failure. -/
theorem clean_total_amount_default_witness :
    sanitizeAmountCode "N/A" = .finite 0 :=
  clean_total_amount_finite_unless_special.2 "N/A" (by decide)

theorem map_id_of_mem {α} (f : α → α) (l : List α) (h : ∀ x ∈ l, f x = x) :
    l.map f = l := by
  induction l with
  | nil => rfl
  | cons a t ih =>
      rw [List.map_cons, h a (List.mem_cons_self a t),
        ih (fun x hx => h x (List.mem_cons_of_mem a hx))]

theorem find?_none_of_all {α} (p : α → Bool) (l : List α)
    (h : ∀ x ∈ l, p x = false) : l.find? p = none := by
  induction l with
  | nil => rfl
  | cons a t ih =>
      simp [List.find?, h a (List.mem_cons_self a t),
        ih (fun x hx => h x (List.mem_cons_of_mem a hx))]

theorem filter_none_of_all {α} (p : α → Bool) (l : List α)
    (h : ∀ x ∈ l, p x = false) : l.filter p = [] := by
  induction l with
  | nil => rfl
  | cons a t ih =>
      simp [List.filter_cons, h a (List.mem_cons_self a t),
        ih (fun x hx => h x (List.mem_cons_of_mem a hx))]

theorem find?_append_none {α} (p : α → Bool) (l1 l2 : List α)
    (h : l1.find? p = none) : (l1 ++ l2).find? p = l2.find? p := by
  induction l1 with
  | nil => rfl
  | cons a t ih =>
      by_cases ha : p a
      · rw [List.find?_cons_of_pos _ ha] at h
        exact absurd h (by simp)
      · rw [List.find?_cons_of_neg _ ha] at h
        rw [List.cons_append, List.find?_cons_of_neg _ ha]
        exact ih h

theorem get_item_eq_find? (st : SPStore) (fr : Bool) (nid : Nat) :
    get_item_by_node_id st fr nid =
      st.items.find? (fun it => it.fields.NodeID = natToStr nid) := by
  cases fr <;>
    simp [get_item_by_node_id, get_item_by_node_id_filtered,
      get_item_by_node_id_fallback, head?_filter_eq_find?]

theorem get_item_mem (st : SPStore) (fr : Bool) (nid : Nat) (it : SPItem)
    (h : get_item_by_node_id st fr nid = some it) :
    it ∈ st.items ∧ it.fields.NodeID = natToStr nid := by
  rw [get_item_eq_find? st fr nid] at h
  exact ⟨List.mem_of_find?_eq_some h, by simpa using List.find?_some h⟩

theorem find?_id_map_update (l : List SPItem) (i : Nat) (f : SPFields)
    (hmem : ∃ x ∈ l, x.id = i) :
    (l.map (fun x => if x.id = i then { x with fields := f } else x)).find?
      (fun x => x.id = i) = some { id := i, fields := f } := by
  induction l with
  | nil => simp at hmem
  | cons a t ih =>
      by_cases ha : a.id = i
      · simp [List.find?, ha]
      · have hmem' : ∃ x ∈ t, x.id = i := by
          rcases hmem with ⟨x, hx, hxi⟩
          rcases List.mem_cons.mp hx with h1 | h2
          · exact absurd (h1 ▸ hxi) ha
          · exact ⟨x, h2, hxi⟩
        simp [List.find?, ha, ih hmem']

/-- C8: the upsert is idempotent at the record level: when no stored row
matches the document identifier and the stored item identities are below
the next server identity, calling create_or_update_item twice with the
same arguments leaves exactly one stored row for that identifier — the
first call creates it, the second finds it and updates the same item
identity instead of creating a duplicate.  Holds with either lookup path. -/
theorem upsert_twice_single_record (st : SPStore) (fr : Bool) (nid : Nat)
    (fn url : String) (m : SPMetadata)
    (habs : ∀ x ∈ st.items, x.fields.NodeID ≠ natToStr nid)
    (hid : ∀ x ∈ st.items, x.id < st.nextId) :
    ((create_or_update_item (create_or_update_item st fr nid fn url m)
        fr nid fn url m).items.filter
      (fun x => x.fields.NodeID = natToStr nid)).length = 1 := by
  have hpx : ∀ x ∈ st.items,
      (fun it => decide (it.fields.NodeID = natToStr nid)) x = false :=
    fun x hx => decide_eq_false (habs x hx)
  have hlook0 : get_item_by_node_id st fr nid = none := by
    rw [get_item_eq_find? st fr nid]
    exact find?_none_of_all _ _ hpx
  have h1 : create_or_update_item st fr nid fn url m =
      { items := st.items ++ [{ id := st.nextId, fields := buildFields nid fn url m }],
        nextId := st.nextId + 1 } := by
    simp [create_or_update_item, hlook0]
  have hFnode : (buildFields nid fn url m).NodeID = natToStr nid := rfl
  have hlook1 : get_item_by_node_id (create_or_update_item st fr nid fn url m) fr nid =
      some { id := st.nextId, fields := buildFields nid fn url m } := by
    rw [get_item_eq_find?, h1]
    show (st.items ++ [({ id := st.nextId, fields := buildFields nid fn url m } : SPItem)]).find?
        (fun it => it.fields.NodeID = natToStr nid) =
      some { id := st.nextId, fields := buildFields nid fn url m }
    rw [find?_append_none _ _ _ (find?_none_of_all _ _ hpx)]
    simp [List.find?, hFnode]
  have h2 : (create_or_update_item (create_or_update_item st fr nid fn url m)
      fr nid fn url m).items =
      st.items ++ [{ id := st.nextId, fields := buildFields nid fn url m }] := by
    rw [create_or_update_item.eq_def]
    simp only [hlook1]
    rw [h1]
    simp only [List.map_append]
    congr 1
    · exact map_id_of_mem _ _ (fun x hx => by
        have : x.id ≠ st.nextId := Nat.ne_of_lt (hid x hx)
        simp [this])
    · simp
  rw [h2, List.filter_append, filter_none_of_all _ _ hpx]
  simp [hFnode]

/-- Witness for the C8 theorem at a store holding one unrelated row, with
the fallback lookup path. -/
theorem upsert_twice_single_record_witness :
    ((create_or_update_item (create_or_update_item witnessStore true 42 "a.pdf" "u" {})
        true 42 "a.pdf" "u" {}).items.filter
      (fun x => x.fields.NodeID = natToStr 42)).length = 1 :=
  upsert_twice_single_record witnessStore true 42 "a.pdf" "u" {} (by decide) (by decide)

/-- C9: a validation write through save_validation upserts a row that keeps
every AI field and provenance field of the existing item unchanged (the
route reads them back and create_or_update_item retransmits them, the
numeric ones through clean_float, which fixes finite values) and sets every
human field from the request together with human_validated true. -/
theorem save_validation_preserves_ai_fields (st : SPStore) (fr : Bool) (nid : Nat)
    (req : ValidationRequest) (it : SPItem)
    (hfound : get_item_by_node_id st fr nid = some it)
    (hta : it.fields.AI_TotalAmount.isFinite = true)
    (hc : it.fields.AI_Confidence.isFinite = true)
    (htt : it.fields.Time_Taken.isFinite = true)
    (hreq : req.total_amount.isFinite = true) :
    ∃ st', save_validation st fr nid req = .ok st' ∧
      st'.items.find? (fun x => x.id = it.id) = some
        { id := it.id, fields :=
          { NodeID := natToStr nid,
            Filename := it.fields.Filename,
            GCDocsURL := it.fields.GCDocsURL,
            AI_InvoiceNumber := it.fields.AI_InvoiceNumber,
            AI_InvoiceDate := it.fields.AI_InvoiceDate,
            AI_CompanyName := it.fields.AI_CompanyName,
            AI_TotalAmount := it.fields.AI_TotalAmount,
            AI_Processed := it.fields.AI_Processed,
            AI_Confidence := it.fields.AI_Confidence,
            OCR_Method := it.fields.OCR_Method,
            LLM_Used := it.fields.LLM_Used,
            Time_Taken := it.fields.Time_Taken,
            Human_InvoiceNumber := req.invoice_number,
            Human_InvoiceDate := req.invoice_date,
            Human_CompanyName := req.company_name,
            Human_TotalAmount := req.total_amount,
            Human_Validated := true,
            Human_Flagged := req.flagged,
            Human_Notes := req.notes } } := by
  have hmem := get_item_mem st fr nid it hfound
  simp only [save_validation, hfound]
  refine ⟨_, rfl, ?_⟩
  simp only [create_or_update_item, hfound]
  rw [find?_id_map_update _ _ _ ⟨it, hmem.1, rfl⟩]
  simp [buildFields, clean_float_finite _ hta, clean_float_finite _ hc,
    clean_float_finite _ htt, clean_float_finite _ hreq]

/-- Witness for the C9 theorem at the AI-processed row and a concrete
validation request. -/
theorem save_validation_witness :
    ∃ st', save_validation aiProcessedStore false 42 demoValidation = .ok st' ∧
      st'.items.find? (fun x => x.id = 7) = some
        { id := 7, fields :=
          { NodeID := "42", Filename := "inv.pdf", GCDocsURL := "u",
            AI_InvoiceNumber := "INV-1", AI_InvoiceDate := "2024-02-02",
            AI_CompanyName := "ACME", AI_TotalAmount := .finite (mkRat 99 1),
            AI_Processed := true, AI_Confidence := .finite (mkRat 85 100),
            OCR_Method := "paddleocr_optimized", LLM_Used := "mistral-7b.gguf",
            Time_Taken := .finite (mkRat 3 1),
            Human_InvoiceNumber := "INV-1", Human_InvoiceDate := "2024-02-03",
            Human_CompanyName := "ACME Corp", Human_TotalAmount := .finite (mkRat 100 1),
            Human_Validated := true, Human_Flagged := false,
            Human_Notes := "adjusted" } } :=
  save_validation_preserves_ai_fields aiProcessedStore false 42 demoValidation
    ⟨7, aiProcessedFields⟩ (by decide) (by decide) (by decide) (by decide) (by decide)
